import Mathlib

/-!
Shallow embedding of the measurement-evaluation logic of a CT quality-control
application (`streamlit_app.py`): dosimetry classification, beam-collimation
calibration, CT-number accuracy, low-contrast resolution, uniformity,
spatial resolution, and control-chart point classification.  All numeric
values from the source are modelled as rationals.
-/

namespace CTQC

/-- Classification statuses used across the QC sections of the source. -/
inductive Status where
  | Pass
  | Minor
  | MajorFail
  | Monitor
  | Fail
  deriving DecidableEq, Repr

/-- Average of the four peripheral CTDI readings (source line 319). -/
def ctdi_periphery_avg (t b l r : ℚ) : ℚ := (t + b + l + r) / 4

/-- Weighted CTDI, `(center + 4 × periphery average) / 5` (source line 341). -/
def ctdi_w (c t b l r : ℚ) : ℚ := (c + 4 * ctdi_periphery_avg t b l r) / 5

/-- ACR dose limits per protocol, as `(reference, pass_fail)` (source lines
344-349); a missing key raises in the source, modelled as `none`. -/
def acr_limits (protocol : String) : Option (ℚ × ℚ) :=
  if protocol = "Adult Abdomen" then some (25, 30)
  else if protocol = "Adult Head" then some (75, 80)
  else if protocol = "Ped Abd (45lb)" then some (15/2, 10)
  else if protocol = "Ped Head (1y)" then some (35, 40)
  else none

/-- Two-tier dose classification (source lines 371-379). -/
def dosimetry_status (w ref pf : ℚ) : Status :=
  if w ≤ ref then Status.Pass
  else if w ≤ pf then Status.Minor
  else Status.MajorFail

/-- Validity guard for the dosimetry computation (source line 339):
centre reading positive and peripheral average positive. -/
def dosimetry_valid (c t b l r : ℚ) : Bool :=
  decide (0 < c) && decide (0 < ctdi_periphery_avg t b l r)

/-- The stored outcome of one dosimetry evaluation. -/
structure DosimetryResult where
  ctdi_w_val : ℚ
  status : Status
  deriving DecidableEq, Repr

/-- Dosimetry evaluation (source lines 338-405): a result is produced and
stored only when the validity guard holds and the protocol has dose limits. -/
def dosimetry_evaluate (protocol : String) (c t b l r : ℚ) :
    Option DosimetryResult :=
  if dosimetry_valid c t b l r then
    match acr_limits protocol with
    | some (ref, pf) =>
        some ⟨ctdi_w c t b l r, dosimetry_status (ctdi_w c t b l r) ref pf⟩
    | none => none
  else none

/-- Claim C1: with reference limit below the pass/fail limit, the dosimetry
classification is Pass iff CTDI_w ≤ reference, Minor iff it lies strictly above
the reference and at most the pass/fail limit, and MajorFail iff it exceeds the
pass/fail limit; both boundary values are inclusive on the passing side. -/
theorem dosimetry_two_tier_classification (w ref pf : ℚ) (h : ref < pf) :
    (dosimetry_status w ref pf = Status.Pass ↔ w ≤ ref) ∧
    (dosimetry_status w ref pf = Status.Minor ↔ ref < w ∧ w ≤ pf) ∧
    (dosimetry_status w ref pf = Status.MajorFail ↔ pf < w) := by
  unfold dosimetry_status
  split_ifs with h1 h2
  · refine ⟨by simp [h1], ?_, ?_⟩
    · simp only [iff_def]
      constructor
      · intro hc; cases hc
      · rintro ⟨hrw, _⟩; exact absurd h1 (not_le.mpr hrw)
    · simp only [iff_def]
      constructor
      · intro hc; cases hc
      · intro hpw; linarith
  · refine ⟨?_, by simp [not_le.mp h1, h2], ?_⟩
    · simp only [iff_def]
      constructor
      · intro hc; cases hc
      · intro hw; exact absurd hw (not_le.mpr (not_le.mp h1))
    · simp only [iff_def]
      constructor
      · intro hc; cases hc
      · intro hpw; linarith
  · refine ⟨?_, ?_, by simp [not_le.mp h2]⟩
    · simp only [iff_def]
      constructor
      · intro hc; cases hc
      · intro hw; linarith [not_le.mp h2]
    · simp only [iff_def]
      constructor
      · intro hc; cases hc
      · rintro ⟨_, hwpf⟩; exact absurd hwpf h2

/-- Claim C1 witness at the spec's example (reference 25, pass/fail 30). -/
theorem dosimetry_two_tier_classification_w :
    dosimetry_status 24 25 30 = Status.Pass ∧
    dosimetry_status 25 25 30 = Status.Pass ∧
    dosimetry_status 27 25 30 = Status.Minor ∧
    dosimetry_status 30 25 30 = Status.Minor ∧
    dosimetry_status 31 25 30 = Status.MajorFail :=
  ⟨(dosimetry_two_tier_classification 24 25 30 (by norm_num)).1.mpr (by norm_num),
   (dosimetry_two_tier_classification 25 25 30 (by norm_num)).1.mpr (by norm_num),
   (dosimetry_two_tier_classification 27 25 30 (by norm_num)).2.1.mpr (by norm_num),
   (dosimetry_two_tier_classification 30 25 30 (by norm_num)).2.1.mpr (by norm_num),
   (dosimetry_two_tier_classification 31 25 30 (by norm_num)).2.2.mpr (by norm_num)⟩

/-- Calibration slope DP/L (source line 442). -/
def cal_dp_l (without_mask with_mask mask_length : ℚ) : ℚ :=
  (without_mask - with_mask) / mask_length

/-- Beam width from a measured exposure (source line 465): the source
substitutes 0 whenever the calibration slope is not positive. -/
def beam_width (measured dpl : ℚ) : ℚ :=
  if 0 < dpl then measured / dpl else 0

/-- Beam-width error tolerance: the greater of 30% of nominal and 3 mm
(source lines 469-470). -/
def beam_criteria (nominal : ℚ) : ℚ := max (nominal * (3/10)) 3

/-- Per-row collimation pass test (source line 472). -/
def beam_row_pass (measured nominal dpl : ℚ) : Bool :=
  decide (|beam_width measured dpl - nominal| ≤ beam_criteria nominal)

/-- Guard under which the collimation rows are computed at all (source
line 457): it checks only that the raw readings and mask length are positive,
not the sign of the slope. -/
def beam_rows_computed (without_mask with_mask mask_length : ℚ) : Bool :=
  decide (0 < without_mask) && decide (0 < with_mask) &&
  decide (0 < mask_length)

/-- Claim C2: at calibration readings 10 mR without mask, 12 mR with mask, and
mask length 5.01 mm, the calibration slope is negative, yet the rows are still
computed, the beam width is silently substituted as 0, and the 1.25 mm nominal
row (measured 45.46 mR, from the source's test table) is marked Pass: the
source does not fail fast on a non-positive calibration slope. -/
theorem beam_collimation_nonpositive_slope_behavior :
    beam_rows_computed 10 12 (501/100) = true ∧
    cal_dp_l 10 12 (501/100) < 0 ∧
    beam_width (4546/100) (cal_dp_l 10 12 (501/100)) = 0 ∧
    beam_row_pass (4546/100) (5/4) (cal_dp_l 10 12 (501/100)) = true := by
  refine ⟨?_, ?_, ?_, ?_⟩
  · norm_num [beam_rows_computed]
  · norm_num [cal_dp_l]
  · norm_num [beam_width, cal_dp_l]
  · norm_num [beam_row_pass, beam_width, beam_criteria, cal_dp_l, abs_of_nonneg]

/-- Reference table of CT-number criteria, as `(expected, tolerance)` per
material (source lines 509-514). -/
def materials_ref (material : String) : Option (ℚ × ℚ) :=
  if material = "Air" then some (-1000, 100)
  else if material = "Acrylic" then some (120, 40)
  else if material = "Water" then some (0, 7)
  else if material = "Bone" then some (850, 100)
  else none

/-- Per-material pass criterion (source lines 542-551): water always uses the
fixed ±7 HU band instead of the supplied tolerance. -/
def ct_number_pass (material : String) (measured expected tolerance : ℚ) :
    Bool :=
  if material = "Water" then decide (|measured - expected| ≤ 7)
  else decide (|measured - expected| ≤ tolerance)

/-- CT-number evaluation against the reference table (source lines 542-556). -/
def ct_number_eval (material : String) (measured : ℚ) : Option Bool :=
  match materials_ref material with
  | some (expected, tolerance) =>
      some (ct_number_pass material measured expected tolerance)
  | none => none

/-- Claim C4: water passes iff within ±7 HU of its expected value, whatever
tolerance the generic table supplies; every other catalogued material passes
iff within its table tolerance of its table expected value. -/
theorem ct_number_water_strict (measured tolerance : ℚ) :
    (∀ expected : ℚ,
      ct_number_pass "Water" measured expected tolerance = true ↔
        |measured - expected| ≤ 7) ∧
    (ct_number_eval "Water" measured = some true ↔ |measured - 0| ≤ 7) ∧
    (ct_number_eval "Air" measured = some true ↔ |measured - (-1000)| ≤ 100) ∧
    (ct_number_eval "Acrylic" measured = some true ↔ |measured - 120| ≤ 40) ∧
    (ct_number_eval "Bone" measured = some true ↔ |measured - 850| ≤ 100) ∧
    (∀ material : String, material ≠ "Water" → ∀ expected : ℚ,
      ct_number_pass material measured expected tolerance = true ↔
        |measured - expected| ≤ tolerance) := by
  refine ⟨?_, ?_, ?_, ?_, ?_, ?_⟩
  · intro expected
    simp [ct_number_pass]
  · simp [ct_number_eval, materials_ref, ct_number_pass]
  · simp [ct_number_eval, materials_ref, ct_number_pass]
  · simp [ct_number_eval, materials_ref, ct_number_pass]
  · simp [ct_number_eval, materials_ref, ct_number_pass]
  · intro material hm expected
    simp [ct_number_pass, hm]

/-- Claim C4 witness: acrylic measured at 130 HU passes its ±40 HU band. -/
theorem ct_number_water_strict_w :
    ct_number_pass "Acrylic" 130 120 40 = true :=
  ((ct_number_water_strict 130 40).2.2.2.2.2 "Acrylic" (by decide) 120).mpr
    (by norm_num)

/-- Claim C7 counterexample: with centre 18 and peripheral readings
(10, 0, 0, 0) three peripheral readings are missing (zero, not positive), yet
the guard passes and a dosimetry result is still produced and stored. -/
theorem dosimetry_missing_reading_result :
    dosimetry_valid 18 10 0 0 0 = true ∧
    (dosimetry_evaluate "Adult Abdomen" 18 10 0 0 0).isSome = true ∧
    ¬ (0 : ℚ) > 0 := by
  have hv : dosimetry_valid 18 10 0 0 0 = true := by
    norm_num [dosimetry_valid, ctdi_periphery_avg]
  refine ⟨hv, ?_, by norm_num⟩
  rw [dosimetry_evaluate, hv]
  rfl

/-- Claim C7 amended: the dosimetry guard requires only a positive centre
reading and a positive peripheral average; for nonnegative readings that is
equivalent to the centre positive and at least one peripheral reading
positive, and whenever the guard fails no result is produced or stored. -/
theorem dosimetry_valid_iff (protocol : String) (c t b l r : ℚ)
    (ht : 0 ≤ t) (hb : 0 ≤ b) (hl : 0 ≤ l) (hr : 0 ≤ r) :
    (dosimetry_valid c t b l r = true ↔
      0 < c ∧ (0 < t ∨ 0 < b ∨ 0 < l ∨ 0 < r)) ∧
    (dosimetry_valid c t b l r = false →
      dosimetry_evaluate protocol c t b l r = none) := by
  constructor
  · simp only [dosimetry_valid, ctdi_periphery_avg, Bool.and_eq_true,
      decide_eq_true_eq]
    constructor
    · rintro ⟨hc, havg⟩
      refine ⟨hc, ?_⟩
      by_contra hnone
      push_neg at hnone
      obtain ⟨h1, h2, h3, h4⟩ := hnone
      have : t = 0 := le_antisymm h1 ht
      have : b = 0 := le_antisymm h2 hb
      have : l = 0 := le_antisymm h3 hl
      have : r = 0 := le_antisymm h4 hr
      subst_vars
      norm_num at havg
    · rintro ⟨hc, hor⟩
      refine ⟨hc, ?_⟩
      rcases hor with h1 | h2 | h3 | h4 <;> positivity
  · intro hf
    simp [dosimetry_evaluate, hf]

/-- Claim C7 witness: the characterization applied at centre 18 with a single
positive peripheral reading. -/
theorem dosimetry_valid_iff_w : dosimetry_valid 18 10 0 0 0 = true :=
  (dosimetry_valid_iff "Adult Abdomen" 18 10 0 0 0 (by norm_num) (by norm_num)
      (by norm_num) (by norm_num)).1.mpr
    ⟨by norm_num, Or.inl (by norm_num)⟩

/-- Claim C8: CTDI_w is monotone increasing in each of its five input readings
and evaluates to 18 when all five readings are 18. -/
theorem ctdi_w_monotone_and_value :
    (∀ c c' t b l r : ℚ, c ≤ c' → ctdi_w c t b l r ≤ ctdi_w c' t b l r) ∧
    (∀ c t t' b l r : ℚ, t ≤ t' → ctdi_w c t b l r ≤ ctdi_w c t' b l r) ∧
    (∀ c t b b' l r : ℚ, b ≤ b' → ctdi_w c t b l r ≤ ctdi_w c t b' l r) ∧
    (∀ c t b l l' r : ℚ, l ≤ l' → ctdi_w c t b l r ≤ ctdi_w c t b l' r) ∧
    (∀ c t b l r r' : ℚ, r ≤ r' → ctdi_w c t b l r ≤ ctdi_w c t b l r') ∧
    ctdi_w 18 18 18 18 18 = 18 := by
  refine ⟨?_, ?_, ?_, ?_, ?_, by norm_num [ctdi_w, ctdi_periphery_avg]⟩ <;>
  · intro x₁ x₂ x₃ x₄ x₅ x₆ h
    simp only [ctdi_w, ctdi_periphery_avg]
    linarith

/-- Claim C8 witness: monotonicity in the centre reading at a concrete pair,
together with the fixed point at all-18 readings. -/
theorem ctdi_w_monotone_and_value_w :
    ctdi_w 17 18 18 18 18 ≤ ctdi_w 18 18 18 18 18 ∧
    ctdi_w 18 18 18 18 18 = 18 :=
  ⟨ctdi_w_monotone_and_value.1 17 18 18 18 18 18 (by norm_num),
   ctdi_w_monotone_and_value.2.2.2.2.2⟩

/-- CNR criteria per protocol (source lines 661-666); `none` when the
protocol is not listed. -/
def cnr_criteria (protocol : String) : Option ℚ :=
  if protocol = "Adult Head" then some 1
  else if protocol = "Adult Abdomen" then some 1
  else if protocol = "Ped Head" then some (7/10)
  else if protocol = "Ped Abd" then some (2/5)
  else none

/-- The required CNR used by the evaluation (source line 668): the source
falls back to the default 1.0 when the protocol has no entry. -/
def cnr_required (protocol : String) : ℚ := (cnr_criteria protocol).getD 1

/-- Contrast-to-noise ratio with its divide-by-zero guard (source line 658). -/
def cnr (signal noise noise_sd : ℚ) : ℚ :=
  if 0 < noise_sd then (signal - noise) / noise_sd else 0

/-- Visibility flags for the 12 low-contrast objects (source lines 604-628). -/
structure Visibility where
  v6_03 : Bool
  v6_05 : Bool
  v6_10 : Bool
  v4_03 : Bool
  v4_05 : Bool
  v4_10 : Bool
  v3_03 : Bool
  v3_05 : Bool
  v3_10 : Bool
  v2_03 : Bool
  v2_05 : Bool
  v2_10 : Bool
  deriving DecidableEq, Repr

/-- Count one visibility flag. -/
def bnat (x : Bool) : Nat := if x then 1 else 0

/-- Total count of visible objects out of 12 (source lines 647-652). -/
def total_visible (v : Visibility) : Nat :=
  bnat v.v6_03 + bnat v.v6_05 + bnat v.v6_10 +
  bnat v.v4_03 + bnat v.v4_05 + bnat v.v4_10 +
  bnat v.v3_03 + bnat v.v3_05 + bnat v.v3_10 +
  bnat v.v2_03 + bnat v.v2_05 + bnat v.v2_10

/-- Overall low-contrast-resolution verdict (source lines 654-707): the
minimum requirement is that the 6mm 0.3%-contrast object is visible, and the
CNR must meet the protocol requirement. -/
def lcr_overall (v : Visibility) (signal noise noise_sd : ℚ)
    (protocol : String) : Bool :=
  v.v6_03 && decide (cnr_required protocol ≤ cnr signal noise noise_sd)

/-- ROI maximum over centre and the four peripheral readings (source
line 762). -/
def roi_max (c t b l r : ℚ) : ℚ := max c (max t (max b (max l r)))

/-- ROI minimum over centre and the four peripheral readings (source
line 763). -/
def roi_min (c t b l r : ℚ) : ℚ := min c (min t (min b (min l r)))

/-- Non-uniformity percentage with its zero-denominator guard (source
line 764). -/
def non_uniformity (c t b l r : ℚ) : ℚ :=
  if roi_max c t b l r + roi_min c t b l r ≠ 0 then
    ((roi_max c t b l r - roi_min c t b l r) /
      (roi_max c t b l r + roi_min c t b l r)) * 100
  else 0

/-- Claim C9: the derived ratio quantities are total functions with explicit
zero-denominator guards: non-uniformity evaluates to 0 whenever the ROI
maximum and minimum sum to 0, and CNR evaluates to 0 whenever the noise
standard deviation is 0. -/
theorem ratio_zero_denominator_guards :
    (∀ c t b l r : ℚ, roi_max c t b l r + roi_min c t b l r = 0 →
      non_uniformity c t b l r = 0) ∧
    (∀ signal noise : ℚ, cnr signal noise 0 = 0) := by
  constructor
  · intro c t b l r h
    simp [non_uniformity, h]
  · intro signal noise
    simp [cnr]

/-- Claim C9 witness: evaluated at a symmetric ROI pattern whose extremes sum
to 0, and at the source's default signal and noise with zero noise SD. -/
theorem ratio_zero_denominator_guards_w :
    non_uniformity 3 (-3) 0 0 0 = 0 ∧ cnr 95 89 0 = 0 :=
  ⟨ratio_zero_denominator_guards.1 3 (-3) 0 0 0
      (by norm_num [roi_max, roi_min]),
   ratio_zero_denominator_guards.2 95 89⟩

/-- Claim C10: the low-contrast overall verdict is Pass iff the 6mm
0.3%-contrast object is visible and the CNR meets the protocol requirement;
any two visibility patterns agreeing on that one flag produce the same
verdict, so the total visible count never affects the outcome. -/
theorem lcr_overall_characterization (v v' : Visibility)
    (signal noise noise_sd : ℚ) (protocol : String) :
    (lcr_overall v signal noise noise_sd protocol = true ↔
      v.v6_03 = true ∧ cnr_required protocol ≤ cnr signal noise noise_sd) ∧
    (v.v6_03 = v'.v6_03 →
      lcr_overall v signal noise noise_sd protocol =
        lcr_overall v' signal noise noise_sd protocol) := by
  constructor
  · simp [lcr_overall]
  · intro h
    simp [lcr_overall, h]

/-- Claim C10 witness: all twelve objects visible versus only the 6mm 0.3%
object visible give the same verdict, though the totals are 12 and 1. -/
theorem lcr_overall_characterization_w :
    lcr_overall
        ⟨true, true, true, true, true, true, true, true, true, true, true,
          true⟩ 95 89 6 "Adult Abdomen" =
      lcr_overall
        ⟨true, false, false, false, false, false, false, false, false, false,
          false, false⟩ 95 89 6 "Adult Abdomen" ∧
    total_visible
        ⟨true, true, true, true, true, true, true, true, true, true, true,
          true⟩ = 12 ∧
    total_visible
        ⟨true, false, false, false, false, false, false, false, false, false,
          false, false⟩ = 1 :=
  ⟨(lcr_overall_characterization
      ⟨true, true, true, true, true, true, true, true, true, true, true, true⟩
      ⟨true, false, false, false, false, false, false, false, false, false,
        false, false⟩ 95 89 6 "Adult Abdomen").2 rfl,
   by decide, by decide⟩

/-- Required-resolution criteria per protocol (source lines 937-943); `none`
when the protocol is not listed. -/
def criteria_map (protocol : String) : Option ℚ :=
  if protocol = "Adult Abdomen" then some 6
  else if protocol = "Adult Head" then some 6
  else if protocol = "Ped Abd" then some 6
  else if protocol = "Ped Head" then some 6
  else if protocol = "High Resolution Chest" then some 8
  else none

/-- The required resolution used by the evaluation (source line 945): the
source falls back to the default 6.0 when the protocol has no entry. -/
def required_resolution (protocol : String) : ℚ :=
  (criteria_map protocol).getD 6

/-- Claim C6 counterexample: the protocol "Coronary CTA" has no entry in
either criteria catalog, yet both lookups yield default criterion values
instead of failing. -/
theorem criterion_lookup_default_counterexample :
    cnr_criteria "Coronary CTA" = none ∧
    cnr_required "Coronary CTA" = 1 ∧
    criteria_map "Coronary CTA" = none ∧
    required_resolution "Coronary CTA" = 6 := by
  refine ⟨rfl, ?_, rfl, ?_⟩ <;> rfl

/-- Claim C6 amended: a catalog miss does not fail; the CNR-requirement
lookup substitutes the default 1.0 and the required-resolution lookup the
default 6.0 whenever the protocol has no entry, while only the dosimetry
limits lookup produces no result on a miss. -/
theorem criterion_lookup_defaults (protocol : String) :
    (cnr_criteria protocol = none → cnr_required protocol = 1) ∧
    (criteria_map protocol = none → required_resolution protocol = 6) ∧
    (acr_limits protocol = none → ∀ c t b l r : ℚ,
      dosimetry_evaluate protocol c t b l r = none) := by
  refine ⟨?_, ?_, ?_⟩
  · intro h; simp [cnr_required, h]
  · intro h; simp [required_resolution, h]
  · intro h c t b l r
    unfold dosimetry_evaluate
    rw [h]
    split <;> rfl

/-- Claim C6 witness: the defaults observed at the unmapped protocol
"Coronary CTA". -/
theorem criterion_lookup_defaults_w :
    cnr_required "Coronary CTA" = 1 ∧ required_resolution "Coronary CTA" = 6 :=
  ⟨(criterion_lookup_defaults "Coronary CTA").1 rfl,
   (criterion_lookup_defaults "Coronary CTA").2.1 rfl⟩

/-- Per-item status of the minimum-resolution check (source lines 951, 971). -/
def sr_min_status (measured required : ℚ) : Status :=
  if required ≤ measured then Status.Pass else Status.Fail

/-- Per-item status of the baseline comparison (source lines 952, 979): a
deviation above 1.0 lp/cm is labelled Monitor. -/
def sr_baseline_status (measured baseline : ℚ) : Status :=
  if |measured - baseline| ≤ 1 then Status.Pass else Status.Monitor

/-- Per-item status of the visual assessment (source line 991). -/
def sr_visual_status (visual : String) : Status :=
  if visual = "Excellent" ∨ visual = "Good" then Status.Pass
  else Status.Monitor

/-- Overall spatial-resolution verdict (source lines 951-965): Pass only when
both the minimum-resolution check and the baseline comparison hold, and Fail
otherwise; the visual assessment is not consulted. -/
def sr_overall (measured baseline required : ℚ) : Status :=
  if required ≤ measured ∧ |measured - baseline| ≤ 1 then Status.Pass
  else Status.Fail

/-- Claim C3 counterexample: measured 7.0 lp/cm, baseline 9.0 lp/cm, required
6.0 lp/cm (Adult Abdomen), visual "Excellent": the per-item results are Pass,
Monitor, Pass — every result Pass except a single Monitor — yet the overall
status is Fail, not Monitor. -/
theorem spatial_monitor_downgrades_to_fail :
    sr_min_status 7 6 = Status.Pass ∧
    sr_baseline_status 7 9 = Status.Monitor ∧
    sr_visual_status "Excellent" = Status.Pass ∧
    sr_overall 7 9 6 = Status.Fail := by
  refine ⟨?_, ?_, rfl, ?_⟩
  · norm_num [sr_min_status]
  · rw [sr_baseline_status, if_neg]
    rw [show |(7:ℚ) - 9| = 2 by rw [abs_of_nonpos] <;> norm_num]
    norm_num
  · rw [sr_overall, if_neg]
    rw [show |(7:ℚ) - 9| = 2 by rw [abs_of_nonpos] <;> norm_num]
    norm_num

/-- Claim C3 amended: the overall spatial-resolution status is Pass exactly
when the minimum-resolution check and the baseline comparison both hold and
is Fail otherwise; a baseline Monitor alongside a passing minimum check makes
the overall status Fail, a visual-assessment Monitor alone leaves it Pass, and
the overall status is never Monitor. -/
theorem spatial_overall_characterization (measured baseline required : ℚ)
    (visual : String) :
    (sr_overall measured baseline required = Status.Pass ↔
      required ≤ measured ∧ |measured - baseline| ≤ 1) ∧
    (sr_min_status measured required = Status.Pass →
      sr_baseline_status measured baseline = Status.Monitor →
      sr_overall measured baseline required = Status.Fail) ∧
    (sr_min_status measured required = Status.Pass →
      sr_baseline_status measured baseline = Status.Pass →
      sr_visual_status visual = Status.Monitor →
      sr_overall measured baseline required = Status.Pass) ∧
    sr_overall measured baseline required ≠ Status.Monitor := by
  have hmin : sr_min_status measured required = Status.Pass ↔
      required ≤ measured := by
    unfold sr_min_status
    split_ifs with h
    · simp [h]
    · simp [h]
  have hbasePass : sr_baseline_status measured baseline = Status.Pass ↔
      |measured - baseline| ≤ 1 := by
    unfold sr_baseline_status
    split_ifs with h
    · simp [h]
    · simp [h]
  have hbaseMon : sr_baseline_status measured baseline = Status.Monitor ↔
      ¬ |measured - baseline| ≤ 1 := by
    unfold sr_baseline_status
    split_ifs with h
    · simp [h]
    · simp [h]
  have hover : sr_overall measured baseline required = Status.Pass ↔
      required ≤ measured ∧ |measured - baseline| ≤ 1 := by
    unfold sr_overall
    split_ifs with h
    · simp [h]
    · simp [h]
  refine ⟨hover, ?_, ?_, ?_⟩
  · intro h1 h2
    unfold sr_overall
    rw [if_neg]
    rintro ⟨_, hb⟩
    exact (hbaseMon.mp h2) hb
  · intro h1 h2 _
    exact hover.mpr ⟨hmin.mp h1, hbasePass.mp h2⟩
  · unfold sr_overall
    split_ifs <;> intro hc <;> cases hc

/-- Claim C3 witness: the amended statement applied at concrete inputs, with
the baseline-Monitor case giving Fail and the visual-Monitor case Pass. -/
theorem spatial_overall_characterization_w :
    sr_overall 7 9 6 = Status.Fail ∧ sr_overall 7 7 6 = Status.Pass :=
  ⟨(spatial_overall_characterization 7 9 6 "Fair").2.1
      (by norm_num [sr_min_status])
      (by
        rw [sr_baseline_status, if_neg]
        rw [show |(7:ℚ) - 9| = 2 by rw [abs_of_nonpos] <;> norm_num]
        norm_num),
   (spatial_overall_characterization 7 7 6 "Fair").2.2.1
      (by norm_num [sr_min_status])
      (by norm_num [sr_baseline_status])
      rfl⟩

/-- Out-of-control test: strictly outside the 3-sigma band (source
line 1091). -/
def out_of_control (m s p : ℚ) : Bool :=
  decide (m + 3 * s < p) || decide (p < m - 3 * s)

/-- Warning test (source lines 1092-1093): strictly outside the 2-sigma band
but inside the 3-sigma band inclusive of its boundary. -/
def warning_point (m s p : ℚ) : Bool :=
  (decide (m + 2 * s < p) && decide (p ≤ m + 3 * s)) ||
  (decide (p < m - 2 * s) && decide (m - 3 * s ≤ p))

/-- Claim C5 counterexample: with mean 0 and standard deviation 2 the point 6
lies exactly on the 3-sigma limit; the claim classifies it as neither
out-of-control nor warning, but the source marks it as a warning point. -/
theorem control_chart_boundary_counterexample :
    warning_point 0 2 6 = true ∧ out_of_control 0 2 6 = false := by
  constructor
  · norm_num [warning_point]
  · norm_num [out_of_control]

/-- Claim C5 amended: a point is a warning point iff it lies strictly outside
the 2-sigma band and inside the 3-sigma band inclusive of its boundary;
out-of-control and warning are mutually exclusive for every point; and with a
positive standard deviation a point exactly on the upper 3-sigma limit is a
warning point, not out-of-control. -/
theorem control_chart_warning_characterization (m s p : ℚ) :
    ¬(out_of_control m s p = true ∧ warning_point m s p = true) ∧
    (warning_point m s p = true ↔
      (m + 2 * s < p ∧ p ≤ m + 3 * s) ∨ (p < m - 2 * s ∧ m - 3 * s ≤ p)) ∧
    (0 < s →
      warning_point m s (m + 3 * s) = true ∧
      out_of_control m s (m + 3 * s) = false) := by
  have hw : ∀ q : ℚ, warning_point m s q = true ↔
      (m + 2 * s < q ∧ q ≤ m + 3 * s) ∨ (q < m - 2 * s ∧ m - 3 * s ≤ q) := by
    intro q
    simp [warning_point]
  have ho : ∀ q : ℚ, out_of_control m s q = true ↔
      m + 3 * s < q ∨ q < m - 3 * s := by
    intro q
    simp [out_of_control]
  refine ⟨?_, hw p, ?_⟩
  · rintro ⟨h1, h2⟩
    rw [ho] at h1
    rw [hw] at h2
    rcases h1 with h1 | h1 <;> rcases h2 with ⟨h2a, h2b⟩ | ⟨h2a, h2b⟩ <;>
      linarith
  · intro hs
    constructor
    · rw [hw]
      exact Or.inl ⟨by linarith, le_refl _⟩
    · rw [← Bool.not_eq_true, ho]
      push_neg
      constructor <;> linarith

/-- Claim C5 witness: the amended statement applied at mean 0 and standard
deviation 2, placing the upper 3-sigma boundary point at 6. -/
theorem control_chart_warning_characterization_w :
    warning_point 0 2 (0 + 3 * 2) = true ∧
    out_of_control 0 2 (0 + 3 * 2) = false :=
  (control_chart_warning_characterization 0 2 0).2.2 (by norm_num)

end CTQC
